import Mathlib

/-!
Verification development for `lib/awsflow/workflow_types.py` of the botoflow
repository: the declarative descriptors `WorkflowType`, `ActivityType` and
`SignalType` and their context-dependent invocation dispatch.

Modelling conventions:
* Python values appearing inside wire-level maps are embedded as the inductive
  type `Val`; decision / registration maps are association lists
  (`Dict := List (String × Val)`) with Python `dict.update` semantics.
* Python exceptions are embedded as the `PyError` enumeration, keeping the
  exception class raised by the source (`TypeError`, `RuntimeError`,
  `NotImplementedError`, `AttributeError`).  The spec's abstract error names
  map onto these: `InvalidConverterError` is the `TypeError` raised by the
  data-converter setter, `UnsupportedContextError` is the context-kind failure
  of each dispatcher, and `MissingTargetError` is the `AttributeError` from
  dereferencing an unset (`None`) `workflow_execution`.
* Delegated calls to the external worker / decider collaborators are embedded
  by returning a description of the request they would receive (the spec
  treats those collaborators as out of scope); a future-like handle is the
  request description tagged as such.
* Fallible operations return `Except PyError _`.
-/

/-- Embedded Python values as they occur in the wire-level maps built by this
module: strings, integers, booleans, `None`, lists, string-keyed dicts, and
the (abstract) output of a data converter's `dumps`. -/
inductive Val : Type where
  | str : String → Val
  | vint : Int → Val
  | vbool : Bool → Val
  | pyNone : Val
  | vlist : List Val → Val
  | vdict : List (String × Val) → Val
  | serialized : Nat → Val → Val

/-- A Python dict with string keys, embedded as an insertion-ordered
association list. -/
abbrev Dict := List (String × Val)

/-- Python `d[k]` lookup, as an `Option`. -/
def dictGet (d : Dict) (k : String) : Option Val :=
  match d.find? (fun p => p.1 == k) with
  | some p => some p.2
  | none => none

/-- Python `k in d`. -/
def dictHasKey (d : Dict) (k : String) : Bool :=
  (d.find? (fun p => p.1 == k)).isSome

/-- Python `d[k] = v`: replace in place when the key exists, else append. -/
def dictSet (d : Dict) (k : String) (v : Val) : Dict :=
  if dictHasKey d k then d.map (fun p => if p.1 == k then (k, v) else p)
  else d ++ [(k, v)]

/-- Python `d.update(e)`. -/
def dictUpdate (d e : Dict) : Dict :=
  e.foldl (fun acc p => dictSet acc p.1 p.2) d

/-- The keys of a dict, in order. -/
def dictKeys (d : Dict) : List String := d.map (·.1)

/-- The Python exceptions raised by this module, by exception class and
message. -/
inductive PyError : Type where
  | typeError : String → PyError
  | runtimeError : String → PyError
  | notImplementedError : String → PyError
  | attributeError : String → PyError
deriving DecidableEq

/-- Modelled from the spec: `constants.USE_WORKER_TASK_LIST`, the sentinel
task-list marker meaning "use the invoking worker's configured task list"
(the constants module is not part of the sources under verification). -/
def USE_WORKER_TASK_LIST : String := "USE_WORKER_TASK_LIST"

/-- Modelled from the spec: `constants.CHILD_TERMINATE`, the default child
policy marker (the constants module is not part of the sources under
verification). -/
def CHILD_TERMINATE : String := "TERMINATE"

/-- Modelled from the spec: `utils.str_or_NONE` on an optional string — null
renders as the explicit absence marker string rather than being omitted (the
utils module is not part of the sources under verification). -/
def str_or_NONE_str : Option String → Val
  | none => Val.str "NONE"
  | some s => Val.str s

/-- Modelled from the spec: `utils.str_or_NONE` on an optional integer field
(timeouts) — the value is stringified, null renders as the absence marker. -/
def str_or_NONE_int : Option Int → Val
  | none => Val.str "NONE"
  | some n => Val.str (toString n)

/-- A raw optional string placed verbatim into a map (Python `None` stays
`None`), as for the `name` field inside `workflow_type`. -/
def optStrVal : Option String → Val
  | none => Val.pyNone
  | some s => Val.str s

/-- Python `str(x)` on an optional string, as used by string formatting:
`str(None)` is the four-letter string. -/
def pyStrOptStr : Option String → String
  | none => "None"
  | some s => s

/-- Modelled from the spec: an object satisfying the serialization-strategy
capability (`AbstractDataConverter`); distinct strategies are distinguished
by an identifier.  Its `dumps` output is represented abstractly by the
`Val.serialized` tag. -/
structure DataConverter where
  id : Nat
deriving DecidableEq

/-- Modelled from the spec: the default JSON-based strategy
(`JSONDataConverter`). -/
def JSONDataConverter : DataConverter := ⟨0⟩

/-- Modelled from the spec: `dumps` of a valid converter produces the
serialized form of its input; represented abstractly, tagged with the
converter's identity. -/
def DataConverter.dumps (c : DataConverter) (v : Val) : Val :=
  Val.serialized c.id v

/-- A Python object passed or stored as a data converter: either a valid
strategy object, some non-strategy object (identified by a number), or
`None`. -/
inductive ConvObj : Type where
  | conv : DataConverter → ConvObj
  | nonConv : Nat → ConvObj
  | pyNone : ConvObj
deriving DecidableEq

/-- Duck-typed `obj.dumps(v)` on a stored converter object.  Modelled from the
spec: non-strategy objects and `None` are modelled as lacking a `dumps`
method, so the attribute access fails. -/
def ConvObj.dumps : ConvObj → Val → Except PyError Val
  | ConvObj.conv c, v => Except.ok (DataConverter.dumps c v)
  | ConvObj.pyNone, _ =>
      Except.error (PyError.attributeError "NoneType object has no attribute dumps")
  | ConvObj.nonConv _, _ =>
      Except.error (PyError.attributeError "object has no attribute dumps")

/-- `WorkflowExecution(workflow_id, run_id)`: the external value type
identifying one remote execution instance. -/
structure WorkflowExecution where
  workflow_id : Option String
  run_id : Option String
deriving DecidableEq

/-- A local workflow-instance handle: an instance of the workflow's
implementing class (identified by `classId`), bound to an execution identity
and carrying a `_data_converter`. -/
structure WorkflowInstance where
  classId : Nat
  workflow_execution : WorkflowExecution
  data_converter : DataConverter
deriving DecidableEq

/-- Modelled from the spec: the collaborator worker available in a
`StartWorkflowContext`.  Its `_start_workflow_execution` operation is external;
we model the `(workflow_id, run_id)` pair it reports back. -/
structure StartWorker where
  domain : Option String
  start_result_workflow_id : Option String
  start_result_run_id : Option String
deriving DecidableEq

/-- Modelled from the spec: the `StartWorkflowContext` collaborator — carries
the worker and the ambient per-call workflow-option overrides consulted by
`to_decision_dict`. -/
structure StartWorkflowContext where
  worker : StartWorker
  workflow_options_overrides : Dict

/-- Modelled from the spec: the decider collaborator of a `DecisionContext`,
exposing `execution_started` and `task_list` state (its delegated operations
are represented by the request descriptions the dispatcher returns). -/
structure Decider where
  execution_started : Bool
  task_list : Option String
deriving DecidableEq

/-- Modelled from the spec: the `DecisionContext` collaborator — the decider,
a reference to the currently-executing workflow instance, and the ambient
per-call option overrides. -/
structure DecisionContext where
  decider : Decider
  workflow : WorkflowInstance
  workflow_options_overrides : Dict
  activity_options_overrides : Dict

/-- Modelled from the spec: the collaborator worker of an `ActivityContext`,
exposing its `domain`. -/
structure ActivityWorker where
  domain : Option String
deriving DecidableEq

/-- Modelled from the spec: the `ActivityContext` collaborator. -/
structure ActivityContext where
  worker : ActivityWorker
deriving DecidableEq

/-- The ambient execution context variants consulted by `get_context()`. -/
inductive Context : Type where
  | start : StartWorkflowContext → Context
  | decision : DecisionContext → Context
  | activity : ActivityContext → Context

/-- `WorkflowType`: the workflow descriptor.  `data_converter` is the stored
`_data_converter`, which in the source is only ever assigned through the
validating property setter and is therefore always a valid strategy object. -/
structure WorkflowType where
  version : String
  name : Option String
  task_list : Option String
  child_policy : Option String
  execution_start_to_close_timeout : Option Int
  task_start_to_close_timeout : Option Int
  description : String
  skip_registration : Bool
  workflow_id : Option String
  data_converter : DataConverter
deriving DecidableEq

/-- The `data_converter` property setter shared by `WorkflowType.__init__` and
later reassignment: `None` resolves to the default JSON strategy, a valid
strategy object is stored, anything else raises `TypeError` (the spec's
`InvalidConverterError`). -/
def WorkflowType.resolve_converter : ConvObj → Except PyError DataConverter
  | ConvObj.pyNone => Except.ok JSONDataConverter
  | ConvObj.conv c => Except.ok c
  | ConvObj.nonConv _ =>
      Except.error (PyError.typeError "Converter must be a subclass of AbstractDataConverter")

/-- `WorkflowType.__init__`: stores all fields verbatim, initializes
`workflow_id` to `None`, and assigns `data_converter` through the validating
setter. -/
def WorkflowType.make (version : String) (execution_start_to_close_timeout : Option Int)
    (task_list : Option String := some USE_WORKER_TASK_LIST)
    (task_start_to_close_timeout : Option Int := some 30)
    (child_policy : Option String := some CHILD_TERMINATE)
    (description : String := "") (name : Option String := none)
    (data_converter : ConvObj := ConvObj.pyNone)
    (skip_registration : Bool := false) : Except PyError WorkflowType :=
  match WorkflowType.resolve_converter data_converter with
  | Except.error e => Except.error e
  | Except.ok conv =>
      Except.ok { version := version, name := name, task_list := task_list,
                  child_policy := child_policy,
                  execution_start_to_close_timeout := execution_start_to_close_timeout,
                  task_start_to_close_timeout := task_start_to_close_timeout,
                  description := description, skip_registration := skip_registration,
                  workflow_id := none, data_converter := conv }

/-- `WorkflowType.to_decision_dict(input, workflow_id, worker_task_list,
domain)`.  The ambient context's `_workflow_options_overrides` (fetched via
`get_context()` in the source) are passed in as `ctx_overrides` and merged on
top. -/
def WorkflowType.to_decision_dict (self : WorkflowType) (input : Val)
    (workflow_id : Option String) (worker_task_list : Option String)
    (domain : Option String) (ctx_overrides : Dict) : Dict :=
  let task_list :=
    if self.task_list = some USE_WORKER_TASK_LIST then worker_task_list else self.task_list
  let serialized_input := self.data_converter.dumps input
  let decision_dict : Dict :=
    [("workflow_type", Val.vdict [("version", Val.str self.version),
                                  ("name", optStrVal self.name)]),
     ("task_list", Val.vdict [("name", str_or_NONE_str task_list)]),
     ("child_policy", str_or_NONE_str self.child_policy),
     ("execution_start_to_close_timeout",
       str_or_NONE_int self.execution_start_to_close_timeout),
     ("task_start_to_close_timeout",
       str_or_NONE_int self.task_start_to_close_timeout),
     ("input", serialized_input)]
  let decision_dict :=
    match workflow_id with
    | some wid =>
        if self.workflow_id = none then dictSet decision_dict "workflow_id" (Val.str wid)
        else decision_dict
    | none => decision_dict
  let decision_dict :=
    match domain with
    | some d => dictSet decision_dict "domain" (Val.str d)
    | none => decision_dict
  dictUpdate decision_dict ctx_overrides

/-- `WorkflowType._continue_as_new_keys`: the fixed whitelist projected onto by
`to_continue_as_new_dict`. -/
def continue_as_new_keys : List String :=
  ["task_start_to_close_timeout", "child_policy", "task_list",
   "execution_start_to_close_timeout", "version", "input"]

/-- `WorkflowType.to_continue_as_new_dict(input, worker_task_list)`: builds the
decision dict (no `workflow_id`, no `domain`), then copies over exactly the
whitelisted keys, skipping any that are absent (`KeyError` → `pass`). -/
def WorkflowType.to_continue_as_new_dict (self : WorkflowType) (input : Val)
    (worker_task_list : Option String) (ctx_overrides : Dict) : Dict :=
  let decision_dict := self.to_decision_dict input none worker_task_list none ctx_overrides
  continue_as_new_keys.foldl
    (fun acc key =>
      match dictGet decision_dict key with
      | some v => dictSet acc key v
      | none => acc) []

/-- `WorkflowType._reset_name(name, force)`: back-fills `name` only when unset
or forced. -/
def WorkflowType.reset_name (self : WorkflowType) (name : String) (force : Bool) :
    WorkflowType :=
  if self.name = none ∨ force then { self with name := some name } else self

/-- `"{0}{1}".format(self.name, self.version)`, the string whose Python hash is
`WorkflowType.__hash__`.  We model the string hash as the identity (the
strongest, collision-free reading of `hash` on strings): two descriptors hash
equal exactly when these strings coincide. -/
def WorkflowType.hashString (self : WorkflowType) : String :=
  pyStrOptStr self.name ++ self.version

/-- The result of `WorkflowType.__call__`: either a new bound local handle
(Start path), a delegated continue-as-new request carrying its map, a
future-like handle for a delegated start-child-workflow request (carrying the
descriptor, the new unbound local handle and the `[args, kwargs]` input), or a
plain `None` return. -/
inductive WorkflowCallResult : Type where
  | startedInstance : WorkflowInstance → WorkflowCallResult
  | continueAsNew : Dict → WorkflowCallResult
  | childWorkflowFuture : WorkflowType → WorkflowInstance → Val → WorkflowCallResult
  | noneResult : WorkflowCallResult

/-- `WorkflowType.__call__((_class, _instance), *args, **kwargs)`: the
invocation dispatcher.  `ctx` is the ambient context (`none` when no context
is active, in which case the unguarded `get_context()` raises
`AttributeError`).  `cls` identifies `_class`; the new local handles it
constructs are modelled directly with their final field values. -/
def WorkflowType.pyCall (self : WorkflowType) (cls : Nat) (inst : WorkflowInstance)
    (args kwargs : Val) (ctx : Option Context) : Except PyError WorkflowCallResult :=
  match ctx with
  | none => Except.error (PyError.attributeError "no active context")
  | some (Context.start sctx) =>
      Except.ok (WorkflowCallResult.startedInstance
        { classId := cls,
          workflow_execution := { workflow_id := sctx.worker.start_result_workflow_id,
                                  run_id := sctx.worker.start_result_run_id },
          data_converter := self.data_converter })
  | some (Context.decision dctx) =>
      if dctx.decider.execution_started then
        if dctx.workflow = inst then
          Except.ok (WorkflowCallResult.continueAsNew
            (self.to_continue_as_new_dict (Val.vlist [args, kwargs])
              dctx.decider.task_list dctx.workflow_options_overrides))
        else
          Except.ok (WorkflowCallResult.childWorkflowFuture self
            { classId := cls,
              workflow_execution := { workflow_id := none, run_id := none },
              data_converter := self.data_converter }
            (Val.vlist [args, kwargs]))
      else
        Except.ok WorkflowCallResult.noneResult
  | some (Context.activity _) =>
      Except.error (PyError.notImplementedError "Unsupported context")

/-- `ActivityType`: the activity descriptor.  Its `__init__` stores the fields
verbatim; `data_converter` defaults to the JSON strategy when `None` but — in
contrast to `WorkflowType` — a non-`None` argument is stored without any
validation, so the field holds the raw object. -/
structure ActivityType where
  version : String
  name : Option String
  task_list : Option String
  heartbeat_timeout : Option Int
  schedule_to_start_timeout : Option Int
  start_to_close_timeout : Option Int
  schedule_to_close_timeout : Option Int
  description : Option String
  skip_registration : Bool
  data_converter : ConvObj
deriving DecidableEq

/-- `ActivityType.__init__`. -/
def ActivityType.make (version : String) (name : Option String := none)
    (task_list : Option String := some USE_WORKER_TASK_LIST)
    (heartbeat_timeout : Option Int := none)
    (schedule_to_start_timeout : Option Int := none)
    (start_to_close_timeout : Option Int := none)
    (schedule_to_close_timeout : Option Int := none)
    (description : Option String := none)
    (data_converter : ConvObj := ConvObj.pyNone)
    (skip_registration : Bool := false) : ActivityType :=
  { version := version, name := name, task_list := task_list,
    heartbeat_timeout := heartbeat_timeout,
    schedule_to_start_timeout := schedule_to_start_timeout,
    start_to_close_timeout := start_to_close_timeout,
    schedule_to_close_timeout := schedule_to_close_timeout,
    description := description, skip_registration := skip_registration,
    data_converter :=
      match data_converter with
      | ConvObj.pyNone => ConvObj.conv JSONDataConverter
      | c => c }

/-- `ActivityType._reset_name(cls, func, activity_name_prefix)`: with `name`
unset the resolved name is `"<cls>.<func>"` (no prefix); with `name` set it is
the prefix followed by the existing name.  The initial assignment of `_name`
in the source is dead in both branches and is elided. -/
def ActivityType.reset_name (self : ActivityType) (cls_name func_name pfx : String) :
    ActivityType :=
  let n :=
    match self.name with
    | none => cls_name ++ "." ++ func_name
    | some nm => pfx ++ nm
  { self with name := some n }

/-- `ActivityType.to_decision_dict()`: no call-time parameters; the task-list
sentinel is left unresolved here. -/
def ActivityType.to_decision_dict (self : ActivityType) : Dict :=
  [("activity_type_version", Val.str self.version),
   ("activity_type_name", optStrVal self.name),
   ("task_list", Val.vdict [("name", str_or_NONE_str self.task_list)]),
   ("heartbeat_timeout", str_or_NONE_int self.heartbeat_timeout),
   ("schedule_to_start_timeout", str_or_NONE_int self.schedule_to_start_timeout),
   ("start_to_close_timeout", str_or_NONE_int self.start_to_close_timeout),
   ("schedule_to_close_timeout", str_or_NONE_int self.schedule_to_close_timeout)]

/-- The result of a successful `ActivityType.__call__`: the delegated
`_handle_execute_activity` request (descriptor, merged decision dict, args,
kwargs), whose returned handle is future-like. -/
inductive ActivityCallResult : Type where
  | executeActivity : ActivityType → Dict → Val → Val → ActivityCallResult

/-- `ActivityType.__call__(*args, **kwargs)`: `get_context()` is guarded
(`AttributeError` with no active context leaves `context = None`); any
non-`DecisionContext` context — including `None` — raises `TypeError` (the
spec's `UnsupportedContextError`); otherwise the decision dict is built,
the ambient activity-option overrides are merged on top, and the execute
request is delegated to the decider. -/
def ActivityType.pyCall (self : ActivityType) (args kwargs : Val) (ctx : Option Context) :
    Except PyError ActivityCallResult :=
  match ctx with
  | some (Context.decision dctx) =>
      Except.ok (ActivityCallResult.executeActivity self
        (dictUpdate self.to_decision_dict dctx.activity_options_overrides) args kwargs)
  | _ =>
      Except.error (PyError.typeError "ActivityType can only be called in the decision context")

/-- `SignalType`: the signal descriptor.  `__init__` stores `name` and the raw
`data_converter` argument (no defaulting, no validation), and always sets
`workflow_execution` to `None`. -/
structure SignalType where
  name : String
  data_converter : ConvObj
  workflow_execution : Option WorkflowExecution
deriving DecidableEq

/-- `SignalType.__init__(name, data_converter, workflow_execution)`: note that
the `workflow_execution` parameter is accepted but not stored — the field is
always initialized to `None`. -/
def SignalType.make (name : String) (data_converter : ConvObj := ConvObj.pyNone)
    (workflow_execution : Option WorkflowExecution := none) : SignalType :=
  { name := name, data_converter := data_converter, workflow_execution := none }

/-- The request delivered to the collaborator worker's
`_signal_workflow_execution_op` by a successful `SignalType.__call__`; the
call itself returns `None`. -/
structure SignalRequest where
  domain : Option String
  signal_name : String
  workflow_id : Option String
  run_id : Option String
  input : Val

/-- The tail of `SignalType.__call__` once the context is known to be
supported: dereference the bound `workflow_execution` (an unset target makes
the attribute access on `None` fail — the spec's `MissingTargetError`) and
issue the single delegated signal request. -/
def SignalType.finishCall (self : SignalType) (worker_domain : Option String)
    (serialized_input : Val) : Except PyError SignalRequest :=
  match self.workflow_execution with
  | none =>
      Except.error (PyError.attributeError "NoneType object has no attribute workflow_id")
  | some we =>
      Except.ok { domain := worker_domain, signal_name := self.name,
                  workflow_id := we.workflow_id, run_id := we.run_id,
                  input := serialized_input }

/-- `SignalType.__call__(*args, **kwargs)`: serializes `[args, kwargs]` first,
then fetches the ambient context (unguarded: `AttributeError` when none is
active), rejects any context other than Start or Activity with `RuntimeError`
(the spec's `UnsupportedContextError`), then dereferences the bound target and
delegates exactly one signal request carrying the worker's domain, the signal
name, the target ids and the serialized input. -/
def SignalType.pyCall (self : SignalType) (args kwargs : Val) (ctx : Option Context) :
    Except PyError SignalRequest :=
  match self.data_converter.dumps (Val.vlist [args, kwargs]) with
  | Except.error e => Except.error e
  | Except.ok serialized_input =>
      match ctx with
      | none => Except.error (PyError.attributeError "no active context")
      | some (Context.decision _) =>
          Except.error (PyError.runtimeError "Unsupported context for this call")
      | some (Context.start sctx) =>
          self.finishCall sctx.worker.domain serialized_input
      | some (Context.activity actx) =>
          self.finishCall actx.worker.domain serialized_input

/-- A key present after `dictSet` was either already present or is the key
just written. -/
lemma mem_dictKeys_dictSet {a : Dict} {key k : String} {v : Val}
    (h : k ∈ dictKeys (dictSet a key v)) : k ∈ dictKeys a ∨ k = key := by
  unfold dictSet at h
  by_cases hk : dictHasKey a key
  · rw [if_pos hk] at h
    unfold dictKeys at h ⊢
    rw [List.map_map] at h
    rcases List.mem_map.mp h with ⟨p, hp, hpk⟩
    simp only [Function.comp_apply] at hpk
    by_cases hpe : p.1 == key
    · right
      rw [if_pos hpe] at hpk
      exact hpk.symm
    · left
      rw [if_neg hpe] at hpk
      exact List.mem_map.mpr ⟨p, hp, hpk⟩
  · rw [if_neg hk] at h
    unfold dictKeys at h ⊢
    rw [List.map_append, List.mem_append] at h
    rcases h with h | h
    · exact Or.inl h
    · right
      simpa using h
/-- A key present after projecting `src` onto a key list (skipping absent
keys) starting from `acc` was present in `acc`, or is a listed key present in
`src`. -/
lemma mem_keys_projectFold (src : Dict) (keys : List String) :
    ∀ (acc : Dict) (k : String),
      k ∈ dictKeys (keys.foldl (fun a key =>
        match dictGet src key with
        | some v => dictSet a key v
        | none => a) acc) →
      k ∈ dictKeys acc ∨ (k ∈ keys ∧ dictGet src k ≠ none) := by
  induction keys with
  | nil =>
      intro acc k h
      exact Or.inl h
  | cons key rest ih =>
      intro acc k h
      rw [List.foldl_cons] at h
      rcases ih _ k h with h1 | ⟨h2, h3⟩
      · cases hg : dictGet src key with
        | some v =>
            rw [hg] at h1
            rcases mem_dictKeys_dictSet h1 with ha | hb
            · exact Or.inl ha
            · subst hb
              exact Or.inr ⟨List.mem_cons_self _ _, by rw [hg]; exact fun hx => by cases hx⟩
        | none =>
            rw [hg] at h1
            exact Or.inl h1
      · exact Or.inr ⟨List.mem_cons_of_mem _ h2, h3⟩

/-- The `task_list` entry of a workflow decision map (no overrides) carries the
worker task list when the descriptor holds the sentinel, else the descriptor's
own task list. -/
lemma dictGet_decision_dict_task_list (wt : WorkflowType) (input : Val)
    (wtl : Option String) :
    dictGet (wt.to_decision_dict input none wtl none []) "task_list" =
      some (Val.vdict [("name", str_or_NONE_str
        (if wt.task_list = some USE_WORKER_TASK_LIST then wtl else wt.task_list))]) := rfl

/-- A sample workflow descriptor keeping the sentinel task list, as produced by
`WorkflowType(version="1.0", execution_start_to_close_timeout=3600)`. -/
def wtSentinel : WorkflowType :=
  { version := "1.0", name := some "ExampleWorkflow.execute",
    task_list := some USE_WORKER_TASK_LIST, child_policy := some CHILD_TERMINATE,
    execution_start_to_close_timeout := some 3600, task_start_to_close_timeout := some 30,
    description := "", skip_registration := false, workflow_id := none,
    data_converter := JSONDataConverter }

/-- The same descriptor with an explicit task list. -/
def wtExplicit : WorkflowType := { wtSentinel with task_list := some "tl-B" }

/-- C5: with the descriptor's `task_list` left at the use-worker's-default
sentinel and a supplied `worker_task_list = "tl-A"`, the decision map's
`task_list.name` is `"tl-A"`; with an explicit task list `"tl-B"` on the
descriptor the supplied worker task list is ignored and `"tl-B"` is used
(ambient overrides empty). -/
theorem workflow_decision_dict_task_list_resolution (wt1 wt2 : WorkflowType) (input : Val)
    (h1 : wt1.task_list = some USE_WORKER_TASK_LIST)
    (h2 : wt2.task_list = some "tl-B") :
    dictGet (wt1.to_decision_dict input none (some "tl-A") none []) "task_list"
      = some (Val.vdict [("name", Val.str "tl-A")])
    ∧ dictGet (wt2.to_decision_dict input none (some "tl-A") none []) "task_list"
      = some (Val.vdict [("name", Val.str "tl-B")]) := by
  constructor
  · rw [dictGet_decision_dict_task_list, if_pos h1]
    rfl
  · rw [dictGet_decision_dict_task_list, h2, if_neg (by decide)]
    rfl

/-- Witness for C5 at the two sample descriptors. -/
theorem workflow_decision_dict_task_list_resolution_witness :
    dictGet (wtSentinel.to_decision_dict (Val.str "in") none (some "tl-A") none [])
        "task_list" = some (Val.vdict [("name", Val.str "tl-A")])
    ∧ dictGet (wtExplicit.to_decision_dict (Val.str "in") none (some "tl-A") none [])
        "task_list" = some (Val.vdict [("name", Val.str "tl-B")]) :=
  workflow_decision_dict_task_list_resolution wtSentinel wtExplicit (Val.str "in") rfl rfl

/-- C6: the key set of `to_continue_as_new_dict` is always a subset of the
fixed whitelist and never contains `workflow_type`, `domain`, or
`workflow_id`; a whitelist key absent from the underlying decision map — such
as `version`, which the decision map only carries nested inside
`workflow_type` — is silently omitted rather than raising. -/
theorem continue_as_new_dict_keys_whitelist (wt : WorkflowType) (input : Val)
    (wtl : Option String) (ov : Dict) :
    (∀ k ∈ dictKeys (wt.to_continue_as_new_dict input wtl ov), k ∈ continue_as_new_keys)
    ∧ "workflow_type" ∉ dictKeys (wt.to_continue_as_new_dict input wtl ov)
    ∧ "domain" ∉ dictKeys (wt.to_continue_as_new_dict input wtl ov)
    ∧ "workflow_id" ∉ dictKeys (wt.to_continue_as_new_dict input wtl ov)
    ∧ "version" ∉ dictKeys (wt.to_continue_as_new_dict input wtl []) := by
  have hsub : ∀ k ∈ dictKeys (wt.to_continue_as_new_dict input wtl ov),
      k ∈ continue_as_new_keys := by
    intro k hk
    unfold WorkflowType.to_continue_as_new_dict at hk
    rcases mem_keys_projectFold _ _ _ _ hk with h | ⟨h, _⟩
    · cases h
    · exact h
  refine ⟨hsub, ?_, ?_, ?_, ?_⟩
  · intro h
    have := hsub _ h
    simp [continue_as_new_keys] at this
  · intro h
    have := hsub _ h
    simp [continue_as_new_keys] at this
  · intro h
    have := hsub _ h
    simp [continue_as_new_keys] at this
  · intro h
    unfold WorkflowType.to_continue_as_new_dict at h
    rcases mem_keys_projectFold _ _ _ _ h with h1 | ⟨_, h3⟩
    · cases h1
    · exact h3 rfl

/-- Witness for C6 at a sample descriptor. -/
theorem continue_as_new_dict_keys_whitelist_witness :
    "workflow_type" ∉ dictKeys (wtSentinel.to_continue_as_new_dict (Val.str "in")
      (some "tl-A") []) :=
  (continue_as_new_dict_keys_whitelist wtSentinel (Val.str "in") (some "tl-A") []).2.1

/-- C8: `SignalType.__init__` always initializes `workflow_execution` to unset,
regardless of the constructor's target-execution argument; `name` and the raw
converter argument are stored. -/
theorem signalType_init_workflow_execution_unset (n : String) (c : ConvObj)
    (we : Option WorkflowExecution) :
    (SignalType.make n c we).workflow_execution = none
    ∧ (SignalType.make n c we).name = n
    ∧ (SignalType.make n c we).data_converter = c :=
  ⟨rfl, rfl, rfl⟩

/-- C9: `ActivityType._reset_name` resolves the final name to
`"<owner_type>.<func>"` (no prefix) when `name` is unset, and to
`"<name_prefix><name>"` when `name` is already set. -/
theorem activityType_reset_name_branches (a : ActivityType)
    (cls_name func_name pfx : String) :
    (a.name = none →
      (a.reset_name cls_name func_name pfx).name = some (cls_name ++ "." ++ func_name))
    ∧ (∀ nm, a.name = some nm →
      (a.reset_name cls_name func_name pfx).name = some (pfx ++ nm)) := by
  constructor
  · intro h
    simp [ActivityType.reset_name, h]
  · intro nm h
    simp [ActivityType.reset_name, h]

/-- A sample unnamed activity descriptor. -/
def atUnnamed : ActivityType := ActivityType.make "1.0"

/-- A sample activity descriptor with a name already set. -/
def atNamed : ActivityType := ActivityType.make "1.0" (some "MyActivity")

/-- Witness for C9 at the two sample activity descriptors. -/
theorem activityType_reset_name_branches_witness :
    (atUnnamed.reset_name "Owner" "run" "Pre").name = some "Owner.run"
    ∧ (atNamed.reset_name "Owner" "run" "Pre").name = some "PreMyActivity" :=
  ⟨(activityType_reset_name_branches atUnnamed "Owner" "run" "Pre").1 rfl,
   (activityType_reset_name_branches atNamed "Owner" "run" "Pre").2 "MyActivity" rfl⟩

/-- C7: invoking an `ActivityType` with no active context fails with the
unsupported-context `TypeError`, and invoking it inside a Start context fails
with the same error kind. -/
theorem activityType_call_context_errors (a : ActivityType) (args kwargs : Val) :
    a.pyCall args kwargs none
      = Except.error
          (PyError.typeError "ActivityType can only be called in the decision context")
    ∧ ∀ sctx : StartWorkflowContext,
        a.pyCall args kwargs (some (Context.start sctx))
          = Except.error
              (PyError.typeError "ActivityType can only be called in the decision context") :=
  ⟨rfl, fun _ => rfl⟩

/-- A sample currently-executing workflow instance held by a decision
context. -/
def sampleInstance : WorkflowInstance :=
  { classId := 1,
    workflow_execution := { workflow_id := some "wf-cur", run_id := some "run-cur" },
    data_converter := JSONDataConverter }

/-- A sample invocation target distinct from `sampleInstance`. -/
def targetInstance : WorkflowInstance :=
  { classId := 2, workflow_execution := { workflow_id := none, run_id := none },
    data_converter := JSONDataConverter }

/-- A decision context whose decider has not yet reported a started
execution. -/
def dctxNotStarted : DecisionContext :=
  { decider := { execution_started := false, task_list := some "tl-A" },
    workflow := sampleInstance, workflow_options_overrides := [],
    activity_options_overrides := [] }

/-- A decision context whose decider has a started execution. -/
def dctxStarted : DecisionContext :=
  { decider := { execution_started := true, task_list := some "tl-A" },
    workflow := sampleInstance, workflow_options_overrides := [],
    activity_options_overrides := [] }

/-- C10: in a Decision context whose decider has `execution_started` false,
`WorkflowType.__call__` falls through the started-guard and returns `None`
without raising or delegating anything; the unsupported-context failure branch
fires only for context kinds other than Start and Decision (here: the Activity
kind). -/
theorem workflow_call_decision_not_started (wt : WorkflowType) (cls : Nat)
    (inst : WorkflowInstance) (args kwargs : Val) (dctx : DecisionContext)
    (h : dctx.decider.execution_started = false) :
    wt.pyCall cls inst args kwargs (some (Context.decision dctx))
      = Except.ok WorkflowCallResult.noneResult
    ∧ ∀ actx : ActivityContext,
        wt.pyCall cls inst args kwargs (some (Context.activity actx))
          = Except.error (PyError.notImplementedError "Unsupported context") := by
  constructor
  · simp [WorkflowType.pyCall, h]
  · intro _
    rfl

/-- Witness for C10 at a concrete not-yet-started decision context. -/
theorem workflow_call_decision_not_started_witness :
    wtSentinel.pyCall 2 targetInstance (Val.vlist []) (Val.vdict [])
      (some (Context.decision dctxNotStarted))
      = Except.ok WorkflowCallResult.noneResult :=
  (workflow_call_decision_not_started wtSentinel 2 targetInstance (Val.vlist [])
    (Val.vdict []) dctxNotStarted rfl).1

/-- C1 counterexample: in a Decision context whose decider has not started
execution, an invocation whose call target differs from the currently
executing instance returns `None` — no child-workflow-start request and no
future-like handle is produced, contradicting the claim as stated for every
Decision context. -/
theorem workflow_call_decision_child_cx :
    dctxNotStarted.workflow ≠ targetInstance
    ∧ wtSentinel.pyCall 2 targetInstance (Val.vlist []) (Val.vdict [])
        (some (Context.decision dctxNotStarted))
      = Except.ok WorkflowCallResult.noneResult
    ∧ ¬ ∃ wt' inst' inp,
        wtSentinel.pyCall 2 targetInstance (Val.vlist []) (Val.vdict [])
          (some (Context.decision dctxNotStarted))
        = Except.ok (WorkflowCallResult.childWorkflowFuture wt' inst' inp) := by
  refine ⟨by decide, rfl, ?_⟩
  rintro ⟨w, i, v, h⟩
  have h' : Except.ok WorkflowCallResult.noneResult
      = Except.ok (WorkflowCallResult.childWorkflowFuture w i v) := h
  exact WorkflowCallResult.noConfusion (Except.ok.inj h')

/-- C1 (amended with the started-execution guard): in a Decision context whose
decider has a started execution, an invocation whose target differs from the
currently-executing instance constructs a new local handle bound to the
not-yet-known execution identity `(None, None)` and this descriptor's
converter, delegates a start-child-workflow request, and returns the
future-like handle; when the target equals the currently-executing instance it
instead builds the continue-as-new map (from the decider's task list and the
ambient overrides) and delegates the continue-as-new operation. -/
theorem workflow_call_decision_dispatch (wt : WorkflowType) (cls : Nat)
    (inst : WorkflowInstance) (args kwargs : Val) (dctx : DecisionContext)
    (hstarted : dctx.decider.execution_started = true) :
    (dctx.workflow ≠ inst →
      wt.pyCall cls inst args kwargs (some (Context.decision dctx))
        = Except.ok (WorkflowCallResult.childWorkflowFuture wt
            { classId := cls,
              workflow_execution := { workflow_id := none, run_id := none },
              data_converter := wt.data_converter }
            (Val.vlist [args, kwargs])))
    ∧ (dctx.workflow = inst →
      wt.pyCall cls inst args kwargs (some (Context.decision dctx))
        = Except.ok (WorkflowCallResult.continueAsNew
            (wt.to_continue_as_new_dict (Val.vlist [args, kwargs])
              dctx.decider.task_list dctx.workflow_options_overrides))) := by
  constructor
  · intro hne
    simp [WorkflowType.pyCall, hstarted, hne]
  · intro heq
    simp [WorkflowType.pyCall, hstarted, heq]

/-- Witness for the amended C1: a started decision context and a differing
target yield exactly the future-like child-start handle. -/
theorem workflow_call_decision_dispatch_witness :
    wtSentinel.pyCall 2 targetInstance (Val.vlist []) (Val.vdict [])
      (some (Context.decision dctxStarted))
      = Except.ok (WorkflowCallResult.childWorkflowFuture wtSentinel
          { classId := 2,
            workflow_execution := { workflow_id := none, run_id := none },
            data_converter := wtSentinel.data_converter }
          (Val.vlist [Val.vlist [], Val.vdict []])) :=
  (workflow_call_decision_dispatch wtSentinel 2 targetInstance (Val.vlist [])
    (Val.vdict []) dctxStarted rfl).1 (by decide)

/-- A descriptor whose hash string is `"abc"` via `name = "ab"`,
`version = "c"`. -/
def wtHashA : WorkflowType := { wtSentinel with name := some "ab", version := "c" }

/-- A descriptor whose hash string is also `"abc"`, via the different split
`name = "a"`, `version = "bc"`. -/
def wtHashB : WorkflowType := { wtSentinel with name := some "a", version := "bc" }

/-- C2 counterexample: the hash is computed from the bare concatenation of
`name` and `version`, so two descriptors with different fields can hash equal
— even under the collision-free reading of the string hash — refuting the
"equal hashes only if both fields match" direction. -/
theorem workflowType_hash_collision_cx :
    wtHashA.hashString = wtHashB.hashString
    ∧ wtHashA.name ≠ wtHashB.name
    ∧ wtHashA.version ≠ wtHashB.version :=
  ⟨rfl, by decide, by decide⟩

/-- C2 (amended): matching `name` and `version` (case-sensitively) always give
equal hashes, but the converse fails — the hash is of the undelimited
concatenation `name ++ version`, so different field pairs can collide. -/
theorem workflowType_hash_of_fields :
    (∀ wt1 wt2 : WorkflowType, wt1.name = wt2.name → wt1.version = wt2.version →
      wt1.hashString = wt2.hashString)
    ∧ ¬ (∀ wt1 wt2 : WorkflowType, wt1.hashString = wt2.hashString →
          wt1.name = wt2.name ∧ wt1.version = wt2.version) := by
  constructor
  · intro wt1 wt2 h1 h2
    unfold WorkflowType.hashString
    rw [h1, h2]
  · intro hall
    rcases hall wtHashA wtHashB rfl with ⟨h1, _⟩
    exact absurd h1 (by decide)

/-- Witness for the amended C2 at concrete descriptors. -/
theorem workflowType_hash_of_fields_witness :
    wtHashA.hashString = wtHashA.hashString :=
  workflowType_hash_of_fields.1 wtHashA wtHashA rfl rfl

/-- C3: in a supported (Start or Activity) context, a `SignalType` with a
valid converter and `workflow_execution` unset fails by dereferencing `None`
(the spec's `MissingTargetError`); with a bound execution it succeeds,
returning the single delegated signal request carrying the context worker's
domain, the signal name, the bound workflow and run ids, and the serialized
`[args, kwargs]` pair. -/
theorem signalType_call_dispatch (s : SignalType) (c : DataConverter)
    (hc : s.data_converter = ConvObj.conv c) (args kwargs : Val) :
    (s.workflow_execution = none →
      (∀ sctx : StartWorkflowContext,
        s.pyCall args kwargs (some (Context.start sctx))
          = Except.error
              (PyError.attributeError "NoneType object has no attribute workflow_id"))
      ∧ (∀ actx : ActivityContext,
        s.pyCall args kwargs (some (Context.activity actx))
          = Except.error
              (PyError.attributeError "NoneType object has no attribute workflow_id")))
    ∧ (∀ wid rid,
        s.workflow_execution = some { workflow_id := some wid, run_id := some rid } →
        ∀ actx : ActivityContext,
          s.pyCall args kwargs (some (Context.activity actx))
            = Except.ok { domain := actx.worker.domain, signal_name := s.name,
                          workflow_id := some wid, run_id := some rid,
                          input := Val.serialized c.id (Val.vlist [args, kwargs]) }) := by
  constructor
  · intro hwe
    constructor
    · intro sctx
      simp [SignalType.pyCall, SignalType.finishCall, hc, hwe, ConvObj.dumps,
        DataConverter.dumps]
    · intro actx
      simp [SignalType.pyCall, SignalType.finishCall, hc, hwe, ConvObj.dumps,
        DataConverter.dumps]
  · intro wid rid hwe actx
    simp [SignalType.pyCall, SignalType.finishCall, hc, hwe, ConvObj.dumps,
      DataConverter.dumps]

/-- A sample valid (non-default) converter bound to a signal descriptor. -/
def signalConverter : DataConverter := ⟨3⟩

/-- A signal descriptor as constructed: target unset. -/
def sigUnbound : SignalType := SignalType.make "sig-go" (ConvObj.conv signalConverter)

/-- The same signal descriptor after the target execution `(wf-1, run-1)` is
assigned post-construction. -/
def sigBound : SignalType :=
  { sigUnbound with
    workflow_execution := some { workflow_id := some "wf-1", run_id := some "run-1" } }

/-- A sample activity context with a worker domain. -/
def actxSample : ActivityContext := { worker := { domain := some "dom-1" } }

/-- Witness for C3: the unset target fails, the bound target produces exactly
the delegated request. -/
theorem signalType_call_dispatch_witness :
    sigUnbound.pyCall (Val.vlist []) (Val.vdict []) (some (Context.activity actxSample))
      = Except.error (PyError.attributeError "NoneType object has no attribute workflow_id")
    ∧ sigBound.pyCall (Val.vlist []) (Val.vdict []) (some (Context.activity actxSample))
      = Except.ok { domain := some "dom-1", signal_name := "sig-go",
                    workflow_id := some "wf-1", run_id := some "run-1",
                    input := Val.serialized 3 (Val.vlist [Val.vlist [], Val.vdict []]) } :=
  ⟨((signalType_call_dispatch sigUnbound signalConverter rfl (Val.vlist [])
      (Val.vdict [])).1 rfl).2 actxSample,
   (signalType_call_dispatch sigBound signalConverter rfl (Val.vlist [])
      (Val.vdict [])).2 "wf-1" "run-1" rfl actxSample⟩

/-- C4 counterexample: `SignalType.__init__` stores a null converter argument
verbatim — the field is `None` after construction, not the default JSON
strategy — and `ActivityType.__init__` stores a non-strategy object without
any validation instead of failing. -/
theorem converter_field_unvalidated_cx :
    (SignalType.make "sig" ConvObj.pyNone
        (some { workflow_id := some "wf-1", run_id := some "run-1" })).data_converter
      = ConvObj.pyNone
    ∧ (ActivityType.make "1.0" none (some USE_WORKER_TASK_LIST) none none none none none
        (ConvObj.nonConv 7) false).data_converter = ConvObj.nonConv 7 :=
  ⟨rfl, rfl⟩

/-- C4 (amended): only `WorkflowType` routes the converter through the
validating binding — null resolves to the default JSON strategy and a
non-strategy argument fails construction (and reassignment) with the
`TypeError` the spec names `InvalidConverterError`, so its field is always a
valid strategy.  `ActivityType` defaults null to the JSON strategy but stores
any non-null argument unvalidated, and `SignalType` stores the raw argument,
including null. -/
theorem data_converter_resolution :
    (WorkflowType.resolve_converter ConvObj.pyNone = Except.ok JSONDataConverter)
    ∧ (∀ c, WorkflowType.resolve_converter (ConvObj.conv c) = Except.ok c)
    ∧ (∀ o, WorkflowType.resolve_converter (ConvObj.nonConv o)
        = Except.error
            (PyError.typeError "Converter must be a subclass of AbstractDataConverter"))
    ∧ (∀ v e tl ts cp de n sk o,
        WorkflowType.make v e tl ts cp de n (ConvObj.nonConv o) sk
          = Except.error
              (PyError.typeError "Converter must be a subclass of AbstractDataConverter"))
    ∧ (∀ v e tl ts cp de n sk ca wt,
        WorkflowType.make v e tl ts cp de n ca sk = Except.ok wt →
          WorkflowType.resolve_converter ca = Except.ok wt.data_converter)
    ∧ (∀ ver nm tl hb sts stc sct de sk,
        (ActivityType.make ver nm tl hb sts stc sct de ConvObj.pyNone sk).data_converter
          = ConvObj.conv JSONDataConverter)
    ∧ (∀ ver nm tl hb sts stc sct de sk o,
        (ActivityType.make ver nm tl hb sts stc sct de (ConvObj.nonConv o) sk).data_converter
          = ConvObj.nonConv o)
    ∧ (∀ nm co we, (SignalType.make nm co we).data_converter = co) := by
  refine ⟨rfl, fun _ => rfl, fun _ => rfl, fun _ _ _ _ _ _ _ _ _ => rfl, ?_,
    fun _ _ _ _ _ _ _ _ _ => rfl, fun _ _ _ _ _ _ _ _ _ _ => rfl, fun _ _ _ => rfl⟩
  intro v e tl ts cp de n sk ca wt h
  unfold WorkflowType.make at h
  cases hres : WorkflowType.resolve_converter ca with
  | error err =>
      rw [hres] at h
      cases h
  | ok conv =>
      rw [hres] at h
      cases h
      rfl

/-- The workflow descriptor produced by construction with a null converter
argument: the field resolves to the default JSON strategy. -/
def wtDefaultConv : WorkflowType :=
  { version := "1.0", name := none, task_list := some USE_WORKER_TASK_LIST,
    child_policy := some CHILD_TERMINATE, execution_start_to_close_timeout := some 3600,
    task_start_to_close_timeout := some 30, description := "", skip_registration := false,
    workflow_id := none, data_converter := JSONDataConverter }

/-- Witness for the amended C4: constructing a `WorkflowType` with a null
converter argument succeeds and resolves the field to the default JSON
strategy. -/
theorem data_converter_resolution_witness :
    WorkflowType.resolve_converter ConvObj.pyNone
      = Except.ok (wtDefaultConv.data_converter) :=
  data_converter_resolution.2.2.2.2.1 "1.0" (some 3600) (some USE_WORKER_TASK_LIST)
    (some 30) (some CHILD_TERMINATE) "" none false ConvObj.pyNone wtDefaultConv rfl
